import Mathlib

/-
Verification of pydantic_restate/config.py: pydantic option models for the
external restate SDK, with two conversion methods (ServiceOptions.new_service
and ServiceHandlerOptions.handler) that pass validated configuration through
to the framework's Service constructor and handler decorator factory.

The external restate SDK is not part of this repository; its objects are
modelled as records of the arguments the repository passes to them, and the
decorator's behaviour is modelled from its declared type Callable[[T], T].
Python timedelta values are carried as integers (microsecond counts); the
code never inspects them, so any faithful value carrier works.
-/

/-- Carrier for Python datetime.timedelta values; the code only passes them through. -/
abbrev Timedelta := Int

namespace Restate

/-- Model of the external restate.InvocationRetryPolicy object. The repository
never inspects it, only forwards it, so it is carried as a tagged value. -/
structure InvocationRetryPolicy where
  tag : Nat
  deriving DecidableEq, Repr

/-- Model of restate.serde serializer objects. DefaultSerde() constructs the
default serde; any other serde is carried as a tagged value. -/
inductive Serde where
  | defaultSerde : Serde
  | custom : Nat → Serde
  deriving DecidableEq, Repr

/-- Model of the DefaultSerde() construction from restate.serde. -/
def DefaultSerde : Serde := Serde.defaultSerde

/-- Model of the external restate.Service object as built by its constructor:
a record of the positional name argument and each keyword argument the
repository passes to it. -/
structure Service where
  name : String
  description : Option String
  metadata : Option (List (String × String))
  inactivity_timeout : Option Timedelta
  abort_timeout : Option Timedelta
  journal_retention : Option Timedelta
  idempotency_retention : Option Timedelta
  ingress_private : Option Bool
  invocation_retry_policy : Option InvocationRetryPolicy
  deriving DecidableEq, Repr

/-- Model of the external restate.Service constructor call: it records its
positional name argument and every keyword argument unchanged. -/
def Service.ctor (name : String) (description : Option String)
    (metadata : Option (List (String × String)))
    (inactivity_timeout : Option Timedelta) (abort_timeout : Option Timedelta)
    (journal_retention : Option Timedelta) (idempotency_retention : Option Timedelta)
    (ingress_private : Option Bool)
    (invocation_retry_policy : Option InvocationRetryPolicy) : Service :=
  ⟨name, description, metadata, inactivity_timeout, abort_timeout,
   journal_retention, idempotency_retention, ingress_private,
   invocation_retry_policy⟩

/-- Keyword arguments of the external decorator factory service.handler, as
passed by ServiceHandlerOptions.handler. -/
structure HandlerRegistration where
  name : Option String
  accept : String
  content_type : String
  input_serde : Serde
  output_serde : Serde
  metadata : Option (List (String × String))
  inactivity_timeout : Option Timedelta
  abort_timeout : Option Timedelta
  journal_retention : Option Timedelta
  idempotency_retention : Option Timedelta
  ingress_private : Option Bool
  invocation_retry_policy : Option InvocationRetryPolicy
  deriving DecidableEq, Repr

/-- Model of the decorator object returned by the external service.handler:
it records the receiver service and the registration options. -/
structure HandlerDecorator where
  service : Service
  registration : HandlerRegistration
  deriving DecidableEq, Repr

/-- Model of the external decorator factory service.handler: it records the
receiver service and the registration keyword arguments unchanged and
returns the decorator. -/
def Service.handler (s : Service) (reg : HandlerRegistration) : HandlerDecorator :=
  ⟨s, reg⟩

/-- Model of applying the returned decorator to a handler function: per its
declared type Callable[[T], T] it yields the handler function, registration
with the service being a framework-side effect. -/
def HandlerDecorator.decorate {T : Type} (_d : HandlerDecorator) (f : T) : T := f

/-- Parameter names accepted by the external Service constructor, as
exercised by the call in ServiceOptions.new_service. -/
def serviceCtorParams : List String :=
  ["name", "description", "metadata", "inactivity_timeout", "abort_timeout",
   "journal_retention", "idempotency_retention", "ingress_private",
   "invocation_retry_policy"]

/-- Parameter names accepted by the external handler decorator factory
service.handler, as exercised by the call in ServiceHandlerOptions.handler. -/
def handlerDecoratorParams : List String :=
  ["name", "accept", "content_type", "input_serde", "output_serde", "metadata",
   "inactivity_timeout", "abort_timeout", "journal_retention",
   "idempotency_retention", "ingress_private", "invocation_retry_policy"]

end Restate

/-- Default specification of a pydantic field: either a plain default value,
or a default factory invoked afresh at each model construction
(Field(default_factory=...)). -/
inductive FieldDefault (α : Type) where
  | value : α → FieldDefault α
  | factory : (Unit → α) → FieldDefault α

/-- Resolving a field default at construction time: a plain default is the
stored value, a factory is invoked to produce a fresh value. -/
def FieldDefault.resolve {α : Type} : FieldDefault α → α
  | .value a => a
  | .factory f => f ()

/-- Embedding of the identity_keys field specification of BaseSettings:
Field(default_factory=list), a factory producing a fresh empty list. -/
def BaseSettings.identity_keys_default : FieldDefault (List String) :=
  .factory (fun _ => [])

/-- Embedding of the BaseSettings pydantic model. -/
structure BaseSettings where
  identity_keys : List String := BaseSettings.identity_keys_default.resolve
  deriving DecidableEq, Repr

/-- Embedding of the BaseServiceOptions pydantic model: every field is
optional with default None. -/
structure BaseServiceOptions where
  metadata : Option (List (String × String)) := none
  inactivity_timeout : Option Timedelta := none
  abort_timeout : Option Timedelta := none
  journal_retention : Option Timedelta := none
  idempotency_retention : Option Timedelta := none
  ingress_private : Option Bool := none
  invocation_retry_policy : Option Restate.InvocationRetryPolicy := none
  deriving DecidableEq, Repr

/-- Embedding of the ServiceOptions pydantic model: inherits the base fields
and adds the required name and the optional description. -/
structure ServiceOptions extends BaseServiceOptions where
  name : String
  description : Option String := none
  deriving DecidableEq, Repr

/-- Embedding of ServiceOptions.new_service: builds a restate.Service by the
constructor call in the source, name positional and every other field under
the keyword of the same name. -/
def ServiceOptions.new_service (o : ServiceOptions) : Restate.Service :=
  Restate.Service.ctor o.name o.description o.metadata o.inactivity_timeout
    o.abort_timeout o.journal_retention o.idempotency_retention
    o.ingress_private o.invocation_retry_policy

/-- State-passing form of new_service: the source body only reads self's
fields and contains no assignment, so the post-call receiver state is the
receiver unchanged. -/
def ServiceOptions.new_serviceS (o : ServiceOptions) :
    Restate.Service × ServiceOptions :=
  (o.new_service, o)

/-- Embedding of the ServiceHandlerOptions pydantic model: inherits the base
fields and adds an optional name defaulting to None. -/
structure ServiceHandlerOptions extends BaseServiceOptions where
  name : Option String := none
  deriving DecidableEq, Repr

/-- Embedding of ServiceHandlerOptions.handler: calls service.handler with the
model's fields under keywords of the same name, and with accept,
content_type, input_serde, output_serde taken from the method arguments
(defaulting to application/json and DefaultSerde()). -/
def ServiceHandlerOptions.handler (o : ServiceHandlerOptions)
    (service : Restate.Service)
    (accept : String := "application/json")
    (content_type : String := "application/json")
    (input_serde : Restate.Serde := Restate.DefaultSerde)
    (output_serde : Restate.Serde := Restate.DefaultSerde) :
    Restate.HandlerDecorator :=
  Restate.Service.handler service
    { name := o.name
      accept := accept
      content_type := content_type
      input_serde := input_serde
      output_serde := output_serde
      metadata := o.metadata
      inactivity_timeout := o.inactivity_timeout
      abort_timeout := o.abort_timeout
      journal_retention := o.journal_retention
      idempotency_retention := o.idempotency_retention
      ingress_private := o.ingress_private
      invocation_retry_policy := o.invocation_retry_policy }

/-- State-passing form of handler: the source body only reads self's fields
and contains no assignment, so the post-call receiver state is the receiver
unchanged. -/
def ServiceHandlerOptions.handlerS (o : ServiceHandlerOptions)
    (service : Restate.Service)
    (accept : String := "application/json")
    (content_type : String := "application/json")
    (input_serde : Restate.Serde := Restate.DefaultSerde)
    (output_serde : Restate.Serde := Restate.DefaultSerde) :
    Restate.HandlerDecorator × ServiceHandlerOptions :=
  (o.handler service accept content_type input_serde output_serde, o)

/-- Field names of the ServiceOptions pydantic model, inherited fields
included. -/
def ServiceOptions.fieldNames : List String :=
  ["metadata", "inactivity_timeout", "abort_timeout", "journal_retention",
   "idempotency_retention", "ingress_private", "invocation_retry_policy",
   "name", "description"]

/-- Field names of the ServiceHandlerOptions pydantic model, inherited fields
included. -/
def ServiceHandlerOptions.fieldNames : List String :=
  ["metadata", "inactivity_timeout", "abort_timeout", "journal_retention",
   "idempotency_retention", "ingress_private", "invocation_retry_policy",
   "name"]

/-- Parameters of the ServiceHandlerOptions.handler method itself, besides
self and service: the per-call serialization and content negotiation
arguments. -/
def ServiceHandlerOptions.handlerMethodParams : List String :=
  ["accept", "content_type", "input_serde", "output_serde"]

/-- Names of the conversion methods the module defines. -/
def conversionMethods : List String :=
  ["ServiceOptions.new_service", "ServiceHandlerOptions.handler"]

/-- Pydantic validation error: a required field was not supplied. -/
inductive ValidationError where
  | missing : String → ValidationError
  deriving DecidableEq, Repr

/-- Raw constructor input for ServiceOptions: each component is some v when
the caller supplied the field and none when the field was omitted. -/
structure RawServiceOptions where
  name : Option String := none
  description : Option (Option String) := none
  metadata : Option (Option (List (String × String))) := none
  inactivity_timeout : Option (Option Timedelta) := none
  abort_timeout : Option (Option Timedelta) := none
  journal_retention : Option (Option Timedelta) := none
  idempotency_retention : Option (Option Timedelta) := none
  ingress_private : Option (Option Bool) := none
  invocation_retry_policy : Option (Option Restate.InvocationRetryPolicy) := none
  deriving DecidableEq, Repr

/-- Embedding of pydantic validation for ServiceOptions: name is the only
field without a default, so its absence is a validation error; every other
omitted field takes its declared default None. -/
def ServiceOptions.validate (raw : RawServiceOptions) :
    Except ValidationError ServiceOptions :=
  match raw.name with
  | none => .error (.missing "name")
  | some n =>
    .ok { name := n
          description := raw.description.getD none
          metadata := raw.metadata.getD none
          inactivity_timeout := raw.inactivity_timeout.getD none
          abort_timeout := raw.abort_timeout.getD none
          journal_retention := raw.journal_retention.getD none
          idempotency_retention := raw.idempotency_retention.getD none
          ingress_private := raw.ingress_private.getD none
          invocation_retry_policy := raw.invocation_retry_policy.getD none }

/-- Raw constructor input for ServiceHandlerOptions: each component is some v
when the caller supplied the field and none when the field was omitted. -/
structure RawServiceHandlerOptions where
  name : Option (Option String) := none
  metadata : Option (Option (List (String × String))) := none
  inactivity_timeout : Option (Option Timedelta) := none
  abort_timeout : Option (Option Timedelta) := none
  journal_retention : Option (Option Timedelta) := none
  idempotency_retention : Option (Option Timedelta) := none
  ingress_private : Option (Option Bool) := none
  invocation_retry_policy : Option (Option Restate.InvocationRetryPolicy) := none
  deriving DecidableEq, Repr

/-- Embedding of pydantic validation for ServiceHandlerOptions: every field
has a default, so validation always succeeds and every omitted field takes
its declared default None. -/
def ServiceHandlerOptions.validate (raw : RawServiceHandlerOptions) :
    Except ValidationError ServiceHandlerOptions :=
  .ok { name := raw.name.getD none
        metadata := raw.metadata.getD none
        inactivity_timeout := raw.inactivity_timeout.getD none
        abort_timeout := raw.abort_timeout.getD none
        journal_retention := raw.journal_retention.getD none
        idempotency_retention := raw.idempotency_retention.getD none
        ingress_private := raw.ingress_private.getD none
        invocation_retry_policy := raw.invocation_retry_policy.getD none }

/-- C1: for every validated ServiceOptions, new_service constructs the
restate.Service by the Service constructor call with name positional and
description, metadata, inactivity_timeout, abort_timeout, journal_retention,
idempotency_retention, ingress_private and invocation_retry_policy each
under the keyword of the same name, no value transformed. -/
theorem new_service_passthrough (o : ServiceOptions) :
    o.new_service =
      Restate.Service.ctor o.name o.description o.metadata o.inactivity_timeout
        o.abort_timeout o.journal_retention o.idempotency_retention
        o.ingress_private o.invocation_retry_policy ∧
    o.new_service.name = o.name ∧
    o.new_service.description = o.description ∧
    o.new_service.metadata = o.metadata ∧
    o.new_service.inactivity_timeout = o.inactivity_timeout ∧
    o.new_service.abort_timeout = o.abort_timeout ∧
    o.new_service.journal_retention = o.journal_retention ∧
    o.new_service.idempotency_retention = o.idempotency_retention ∧
    o.new_service.ingress_private = o.ingress_private ∧
    o.new_service.invocation_retry_policy = o.invocation_retry_policy :=
  ⟨rfl, rfl, rfl, rfl, rfl, rfl, rfl, rfl, rfl, rfl⟩

/-- C2: for every validated ServiceHandlerOptions and every restate.Service,
the handler method returns the decorator produced by calling service.handler
with each configuration field passed through unchanged under the keyword of
the same name, so the registration carries exactly the options' timeouts,
retention and retry policy. -/
theorem handler_passthrough (o : ServiceHandlerOptions) (s : Restate.Service)
    (a c : String) (i ou : Restate.Serde) :
    o.handler s a c i ou =
      Restate.Service.handler s
        ⟨o.name, a, c, i, ou, o.metadata, o.inactivity_timeout, o.abort_timeout,
         o.journal_retention, o.idempotency_retention, o.ingress_private,
         o.invocation_retry_policy⟩ ∧
    (o.handler s a c i ou).service = s ∧
    (o.handler s a c i ou).registration.name = o.name ∧
    (o.handler s a c i ou).registration.metadata = o.metadata ∧
    (o.handler s a c i ou).registration.inactivity_timeout = o.inactivity_timeout ∧
    (o.handler s a c i ou).registration.abort_timeout = o.abort_timeout ∧
    (o.handler s a c i ou).registration.journal_retention = o.journal_retention ∧
    (o.handler s a c i ou).registration.idempotency_retention = o.idempotency_retention ∧
    (o.handler s a c i ou).registration.ingress_private = o.ingress_private ∧
    (o.handler s a c i ou).registration.invocation_retry_policy = o.invocation_retry_policy :=
  ⟨rfl, rfl, rfl, rfl, rfl, rfl, rfl, rfl, rfl, rfl⟩

/-- C3 counterexample: the claim that every configurable option accepted by
the framework's handler decorator is a field of ServiceHandlerOptions fails
at the option accept, which the decorator accepts (the source passes it) but
which is not a field of the options model. -/
theorem handler_options_not_full_mirror :
    "accept" ∈ Restate.handlerDecoratorParams ∧
    "accept" ∉ ServiceHandlerOptions.fieldNames := by
  decide

/-- C3 amended: every configurable option accepted by the framework's Service
constructor is a field of ServiceOptions, and every configurable option
accepted by the framework's handler decorator is a field of
ServiceHandlerOptions except accept, content_type, input_serde and
output_serde, which are parameters of the handler method instead. -/
theorem option_schemas_mirror_surface :
    (∀ p ∈ Restate.serviceCtorParams, p ∈ ServiceOptions.fieldNames) ∧
    (∀ p ∈ Restate.handlerDecoratorParams,
        p ∉ ServiceHandlerOptions.handlerMethodParams →
        p ∈ ServiceHandlerOptions.fieldNames) := by
  decide

/-- C3 witness: the amended mirror statement applied at the concrete
constructor option metadata and decorator option name. -/
theorem option_schemas_mirror_surface_witness :
    "metadata" ∈ ServiceOptions.fieldNames ∧
    "name" ∈ ServiceHandlerOptions.fieldNames :=
  ⟨option_schemas_mirror_surface.1 "metadata" (by decide),
   option_schemas_mirror_surface.2 "name" (by decide) (by decide)⟩

/-- C4: the module defines exactly the two conversion methods, and for every
validated configuration each constructs the promised host-framework object:
new_service yields the restate.Service built by the framework constructor
from the configuration, and handler yields a handler decorator, a callable
mapping a handler function to a handler function. -/
theorem conversion_methods_construct (o : ServiceOptions)
    (oh : ServiceHandlerOptions) (s : Restate.Service) (a c : String)
    (i ou : Restate.Serde) {T : Type} (f : T) :
    conversionMethods.length = 2 ∧
    o.new_service =
      Restate.Service.ctor o.name o.description o.metadata o.inactivity_timeout
        o.abort_timeout o.journal_retention o.idempotency_retention
        o.ingress_private o.invocation_retry_policy ∧
    (oh.handler s a c i ou).decorate f = f :=
  ⟨rfl, rfl, rfl⟩

/-- C5: both conversion methods only package parameters: in the state-passing
embedding of each call, the post-call options state equals the receiver, so
no field of the configuration model is written. -/
theorem conversion_methods_frame (o : ServiceOptions)
    (oh : ServiceHandlerOptions) (s : Restate.Service) (a c : String)
    (i ou : Restate.Serde) :
    o.new_serviceS.2 = o ∧ (oh.handlerS s a c i ou).2 = oh :=
  ⟨rfl, rfl⟩

/-- C6: constructing a ServiceOptions without a name fails validation with a
missing-field error, constructing a ServiceHandlerOptions without a name
succeeds with name None, and every value of either validated model type is
the image of a successful validation, so the conversion methods only apply
to configuration that passed validation. -/
theorem validated_front_door :
    ServiceOptions.validate {} = Except.error (ValidationError.missing "name") ∧
    ServiceHandlerOptions.validate {} = Except.ok { name := none } ∧
    (∀ o : ServiceOptions, ∃ raw, ServiceOptions.validate raw = Except.ok o) ∧
    (∀ oh : ServiceHandlerOptions,
        ∃ raw, ServiceHandlerOptions.validate raw = Except.ok oh) := by
  refine ⟨rfl, rfl, fun o => ⟨⟨some o.name, some o.description, some o.metadata,
    some o.inactivity_timeout, some o.abort_timeout, some o.journal_retention,
    some o.idempotency_retention, some o.ingress_private,
    some o.invocation_retry_policy⟩, rfl⟩, fun oh => ⟨⟨some oh.name,
    some oh.metadata, some oh.inactivity_timeout, some oh.abort_timeout,
    some oh.journal_retention, some oh.idempotency_retention,
    some oh.ingress_private, some oh.invocation_retry_policy⟩, rfl⟩⟩

/-- C7: every optional field of BaseServiceOptions defaults to None, so a
ServiceOptions validated from only a name yields, via new_service, a Service
constructor call in which every argument besides name, description included,
is None, deferring those settings to the runtime defaults. -/
theorem name_only_defaults (n : String) :
    ServiceOptions.validate { name := some n } = Except.ok { name := n } ∧
    ({ name := n } : ServiceOptions).new_service =
      Restate.Service.ctor n none none none none none none none none ∧
    ({} : BaseServiceOptions) = ⟨none, none, none, none, none, none, none⟩ :=
  ⟨rfl, rfl, rfl⟩

/-- C8: when handler is called without the optional arguments it forwards
accept and content_type as application/json and DefaultSerde for both
serdes, and whatever the arguments are, the four forwarded values equal the
method's arguments and never come from the options model. -/
theorem handler_default_serialization (oh : ServiceHandlerOptions)
    (s : Restate.Service) (a c : String) (i ou : Restate.Serde) :
    (oh.handler s).registration.accept = "application/json" ∧
    (oh.handler s).registration.content_type = "application/json" ∧
    (oh.handler s).registration.input_serde = Restate.DefaultSerde ∧
    (oh.handler s).registration.output_serde = Restate.DefaultSerde ∧
    (oh.handler s a c i ou).registration.accept = a ∧
    (oh.handler s a c i ou).registration.content_type = c ∧
    (oh.handler s a c i ou).registration.input_serde = i ∧
    (oh.handler s a c i ou).registration.output_serde = ou :=
  ⟨rfl, rfl, rfl, rfl, rfl, rfl, rfl, rfl⟩

/-- C9: a BaseSettings constructed without arguments has identity_keys equal
to the empty list, and the default is specified as a factory resolved afresh
at each construction, producing the empty list. -/
theorem identity_keys_fresh_empty_default :
    ({} : BaseSettings).identity_keys = [] ∧
    BaseSettings.identity_keys_default =
      FieldDefault.factory (fun _ => ([] : List String)) ∧
    BaseSettings.identity_keys_default.resolve = [] :=
  ⟨rfl, rfl, rfl⟩
